import Mathlib

/-!
Shallow embedding of the Tarzan interpreter (src/tarzan.c).

The C program is a single-pass interpreter driven by a global read cursor over
the loaded source bytes.  We model the source as a `List Char` (fixed) and the
mutable globals (`read_position`, `vars`, `jump_stack`, `block_level`,
plus the produced stdout lines) as an explicit `State`.

Modelling conventions:
* machine integers (`i64 value`, `i16 exponent`, `i32` counters) become `Int`
  (no claim concerns overflow, and signed overflow in C is undefined);
* C's truncating signed division `a / b` becomes `Int.tdiv`;
* `pow(10, n)` (a `double` in C, exact for the magnitudes involved) becomes
  the integer `10 ^ n`;
* bounded scanning loops (they advance the cursor and stop at the end of the
  buffer) are written with an internal counter `input.length + 1`, which always
  exceeds the number of iterations the C loop can perform, so the functions
  compute exactly what the C loops compute;
* `evaluate_expression` and the top level driver can genuinely diverge
  (e.g. an unrecognised byte inside an expression is skipped without advancing
  the cursor), so they take an explicit fuel argument and return `Option`;
* a fatal `exit(1)` in `set_variable` (undefined variable) is modelled by
  setting the `err` flag after emitting the error line, which stops the driver;
  the fatal path inside `parse_get_variable` surfaces as `none`;
* `out of bounds` byte reads (`file_data[pos]` past the end) return `'\x00'`.
-/

namespace Tarzan

/-- The NUL byte used for out-of-range reads. -/
def nul : Char := Char.ofNat 0

/-- Number struct: fixed point decimal `value * 10 ^ exponent`. -/
structure Number where
  value : Int
  exponent : Int
deriving DecidableEq, Repr

/-- Variable struct: a named `Number` tagged with the block level at creation. -/
structure Variable where
  name : List Char
  value : Number
  level : Int
deriving DecidableEq, Repr

/-- Jump struct: what to do at the closing brace (`type`: 1 = skip_else,
2 = iterate) together with a stored read position. -/
structure Jump where
  type : Nat
  index : Nat
deriving DecidableEq, Repr

/-- The mutable globals of tarzan.c: read cursor, vars array, jump stack
(head = top of the stack), block level, emitted stdout lines, and a flag
marking that the process would have called `exit(1)`. -/
structure State where
  pos : Nat
  vars : List Variable
  jump_stack : List Jump
  block_level : Int
  output : List String
  err : Bool
deriving DecidableEq, Repr

/-- Initial state of the interpreter, cursor at byte 0. -/
def initState : State := ⟨0, [], [], 0, [], false⟩

/-- `is_token`: byte-wise match of the upcoming bytes against a literal.
(The C bound check `pos + len ≤ size` is subsumed: a short `take` never
equals a longer literal.) -/
def is_token (input : List Char) (pos : Nat) (tok : List Char) : Bool :=
  (input.drop pos).take tok.length == tok

/-- `file_data[pos]`, with out-of-range reads giving NUL. -/
def byteAt (input : List Char) (pos : Nat) : Char := input.getD pos nul

/-- `c >= '0' && c <= '9'`. -/
def is_digit (c : Char) : Bool := decide ('0' ≤ c ∧ c ≤ '9')

/-- `c >= 'a' && c <= 'z'`. -/
def is_lower (c : Char) : Bool := decide ('a' ≤ c ∧ c ≤ 'z')

/-- Loop of `parse_number`: digits accumulate into `value`; a `'.'` sets the
`decimal` flag; every digit after the dot decrements the exponent. -/
def parse_number_go (input : List Char) : Nat → Nat → Int → Int → Bool → Number × Nat
  | 0, pos, v, e, _ => (⟨v, e⟩, pos)
  | f+1, pos, v, e, dec =>
    let c := byteAt input pos
    if is_digit c || c == '.' then
      if c == '.' then parse_number_go input f (pos + 1) v e true
      else parse_number_go input f (pos + 1) (v * 10 + ((c.toNat : Int) - ('0'.toNat : Int)))
        (if dec then e - 1 else e) dec
    else (⟨v, e⟩, pos)

/-- `parse_number`: optional leading `-`, then digits with an optional dot. -/
def parse_number (input : List Char) (pos : Nat) : Number × Nat :=
  let negative := byteAt input pos == '-'
  let pos1 := if negative then pos + 1 else pos
  let r := parse_number_go input (input.length + 1) pos1 0 0 false
  (if negative then ⟨-r.1.value, r.1.exponent⟩ else r.1, r.2)

/-- Loop of the identifier scanners: consume `[a-z_]+`. -/
def parse_name_go (input : List Char) : Nat → Nat → List Char → List Char × Nat
  | 0, pos, acc => (acc.reverse, pos)
  | f+1, pos, acc =>
    let c := byteAt input pos
    if is_lower c || c == '_' then parse_name_go input f (pos + 1) (c :: acc)
    else (acc.reverse, pos)

/-- Scan an identifier `[a-z_]*` starting at `pos`; returns it with the new
cursor.  (Shared by `parse_get_variable`, `new_variable`, `set_variable`.) -/
def parse_name (input : List Char) (pos : Nat) : List Char × Nat :=
  parse_name_go input (input.length + 1) pos []

/-- `get_variable_index`: scan the vars array from the tail towards the
head, returning the index of the first match, `-1` if absent. -/
def get_variable_index (vars : List Variable) (name : List Char) : Int :=
  match vars with
  | [] => -1
  | v :: rest =>
    let i := get_variable_index rest name
    if i ≥ 0 then i + 1
    else if v.name == name then 0 else -1

/-- Loop of `decrese_block_level` [sic]: walk the index from the tail to the
head; whenever the variable at the current index has the current block level,
pop (drop the LAST element, exactly as `array_pop` does). -/
def decrese_loop (block_level : Int) : List Variable → Nat → List Variable
  | vars, 0 => vars
  | vars, i+1 =>
    let vars2 := match vars.get? i with
      | some v => if v.level == block_level then vars.dropLast else vars
      | none => vars
    decrese_loop block_level vars2 i

/-- `decrese_block_level` [sic]: prune vars of the current block level,
then decrement the level. -/
def decrese_block_level (vars : List Variable) (block_level : Int) :
    List Variable × Int :=
  (decrese_loop block_level vars vars.length, block_level - 1)

/-- `align_exponents`: scale the operand with the larger exponent so that both
share the smaller exponent. -/
def align_exponents (a b : Number) : Number × Number :=
  if a.exponent < b.exponent then
    (a, ⟨b.value * 10 ^ (b.exponent - a.exponent).toNat, a.exponent⟩)
  else if a.exponent > b.exponent then
    (⟨a.value * 10 ^ (a.exponent - b.exponent).toNat, b.exponent⟩, b)
  else (a, b)

/-- `add_decimals`: multiply the value by `10 ^ decimals` and subtract
`decimals` from the exponent. -/
def add_decimals (number : Number) (decimals : Int) : Number :=
  ⟨number.value * 10 ^ decimals.toNat, number.exponent - decimals⟩

/-- `divide_numbers`: division by zero yields `{0,0}` silently; otherwise add
`3 + abs(a.exponent)` decimals to `a`, then truncating integer division. -/
def divide_numbers (a b : Number) : Number :=
  if b.value ≠ 0 then
    let a2 := add_decimals a (3 + (a.exponent.natAbs : Int))
    ⟨Int.tdiv a2.value b.value, a2.exponent - b.exponent⟩
  else ⟨0, 0⟩

/-- Loop of `compact_number`.  (C tests `value % 10 == 0` with truncating mod
and divides by 10; on the zero test truncating and Euclidean mod agree, and on
an exactly divisible value all division conventions agree, so we use Lean's
`%` and `/`.)  The counter `value.natAbs` bounds the iteration count. -/
def compact_go : Nat → Number → Number
  | 0, n => n
  | f+1, n =>
    if n.value % 10 == 0 && n.value != 0 then compact_go f ⟨n.value / 10, n.exponent + 1⟩
    else n

/-- `compact_number`: strip trailing decimal zeros from `value`, bumping the
exponent. -/
def compact_number (number : Number) : Number :=
  compact_go number.value.natAbs number

/-- Align, then add values, keeping the shared exponent: the `+` of the
expression engine (lines 323-326 and 346-348 of tarzan.c). -/
def add_aligned (a b : Number) : Number :=
  let p := align_exponents a b
  ⟨p.1.value + p.2.value, p.1.exponent⟩

/-- Align, then subtract values: the `-` of the expression engine. -/
def sub_aligned (a b : Number) : Number :=
  let p := align_exponents a b
  ⟨p.1.value - p.2.value, p.1.exponent⟩

/-- Align, then multiply values and add exponents: the `*` of the engine. -/
def mul_aligned (a b : Number) : Number :=
  let p := align_exponents a b
  ⟨p.1.value * p.2.value, p.1.exponent + p.2.exponent⟩

/-- Align, then `divide_numbers`: the `/` of the engine (the C code always
aligns the operand pair before calling `divide_numbers`). -/
def div_aligned (a b : Number) : Number :=
  let p := align_exponents a b
  divide_numbers p.1 p.2

/-- The 3-number / 2-operator window of `evaluate_expression`. -/
structure EvalWindow where
  parsed_numbers : Nat
  first_number : Number
  second_number : Number
  third_number : Number
  op_code : Nat
  op_code2 : Nat
deriving DecidableEq, Repr

/-- Fresh window: no numbers, no operators. -/
def initWindow : EvalWindow := ⟨0, ⟨0, 0⟩, ⟨0, 0⟩, ⟨0, 0⟩, 0, 0⟩

/-- Put a parsed number into the next unfilled slot (third slot reused when
`parsed_numbers ≥ 2`, as in the C `else`). -/
def place_number (w : EvalWindow) (n : Number) : EvalWindow :=
  if w.parsed_numbers == 0 then
    { w with first_number := n, parsed_numbers := w.parsed_numbers + 1 }
  else if w.parsed_numbers == 1 then
    { w with second_number := n, parsed_numbers := w.parsed_numbers + 1 }
  else
    { w with third_number := n, parsed_numbers := w.parsed_numbers + 1 }

/-- Record an operator byte: `op_code = op_code == 0 ? code : op_code;`
then `op_code2 = op_code > 0 ? code : 0;` (note: evaluated on the updated
`op_code`, hence `op_code2` is always set to the incoming code). -/
def set_op (w : EvalWindow) (code : Nat) : EvalWindow :=
  let op1 := if w.op_code == 0 then code else w.op_code
  let op2 := if op1 > 0 then code else 0
  { w with op_code := op1, op_code2 := op2 }

/-- The window reduction run whenever three numbers are present (tarzan.c
lines 310-342): a high-priority second operator folds `second ⊗ third` into
the second slot; otherwise the first operator folds `first ⊕ second` into the
first slot and the window shifts left. -/
def fold_window (w : EvalWindow) : EvalWindow :=
  if w.parsed_numbers == 3 then
    if w.op_code2 == 3 || w.op_code2 == 4 then
      let m := if w.op_code2 == 3 then mul_aligned w.second_number w.third_number
               else div_aligned w.second_number w.third_number
      { w with second_number := m, third_number := ⟨0, 0⟩, op_code2 := 0, parsed_numbers := 2 }
    else
      let m := if w.op_code == 1 then add_aligned w.first_number w.second_number
               else if w.op_code == 2 then sub_aligned w.first_number w.second_number
               else if w.op_code == 3 then mul_aligned w.first_number w.second_number
               else if w.op_code == 4 then div_aligned w.first_number w.second_number
               else (align_exponents w.first_number w.second_number).1
      { w with first_number := m, second_number := w.third_number, op_code := w.op_code2,
               third_number := ⟨0, 0⟩, op_code2 := 0, parsed_numbers := 2 }
  else w

/-- The reduction at the end of the expression (tarzan.c lines 345-363):
two numbers left applies the pending operator, one number is returned as is,
zero numbers give `{0,0}`. -/
def finish_window (w : EvalWindow) : Number :=
  if w.parsed_numbers == 2 then
    if w.op_code == 1 then add_aligned w.first_number w.second_number
    else if w.op_code == 2 then sub_aligned w.first_number w.second_number
    else if w.op_code == 3 then mul_aligned w.first_number w.second_number
    else if w.op_code == 4 then div_aligned w.first_number w.second_number
    else ⟨0, (align_exponents w.first_number w.second_number).1.exponent⟩
  else if w.parsed_numbers == 1 then w.first_number
  else ⟨0, 0⟩

/-- Loop of `skip_spaces` (and of the inline space-skipping loops that have no
explicit bound check: `is_token " "` is false past the end anyway). -/
def skip_spaces_go (input : List Char) : Nat → Nat → Nat
  | 0, pos => pos
  | f+1, pos => if is_token input pos [' '] then skip_spaces_go input f (pos + 1) else pos

/-- `skip_spaces`. -/
def skip_spaces (input : List Char) (pos : Nat) : Nat :=
  skip_spaces_go input (input.length + 1) pos

/-- Loop of the dispatcher's leading `while (is_token(" ") || is_token("\n"))`. -/
def skip_spaces_nl_go (input : List Char) : Nat → Nat → Nat
  | 0, pos => pos
  | f+1, pos =>
    if is_token input pos [' '] || is_token input pos ['\n'] then
      skip_spaces_nl_go input f (pos + 1)
    else pos

/-- Skip spaces and newlines (dispatcher prelude). -/
def skip_spaces_nl (input : List Char) (pos : Nat) : Nat :=
  skip_spaces_nl_go input (input.length + 1) pos

/-- Loop of `while (is_token(" ") || is_token("="))` in the variable handlers. -/
def skip_eq_spaces_go (input : List Char) : Nat → Nat → Nat
  | 0, pos => pos
  | f+1, pos =>
    if is_token input pos [' '] || is_token input pos ['='] then
      skip_eq_spaces_go input f (pos + 1)
    else pos

/-- Skip spaces and `=` signs. -/
def skip_eq_spaces (input : List Char) (pos : Nat) : Nat :=
  skip_eq_spaces_go input (input.length + 1) pos

/-- Loop of `enter_block`: scan to the next `{`. -/
def enter_go (input : List Char) : Nat → Nat → Nat
  | 0, pos => pos
  | f+1, pos =>
    if !(is_token input pos ['{']) && decide (pos < input.length) then
      enter_go input f (pos + 1)
    else pos

/-- `enter_block`: advance to the next `{` and step past it. -/
def enter_block (input : List Char) (pos : Nat) : Nat :=
  enter_go input (input.length + 1) pos + 1

/-- Loop of `skip_block`: balanced brace counting. -/
def skip_block_go (input : List Char) : Nat → Int → Nat → Nat
  | 0, _, pos => pos
  | f+1, count, pos =>
    if count > 0 && decide (pos < input.length) then
      let count2 := if is_token input pos ['{'] then count + 1
                    else if is_token input pos ['}'] then count - 1
                    else count
      skip_block_go input f count2 (pos + 1)
    else pos

/-- `skip_block`: step out of the current block, skipping nested blocks. -/
def skip_block (input : List Char) (pos : Nat) : Nat :=
  skip_block_go input (input.length + 1) 1 pos

/-- Loop of `skip_line`: scan to the next newline. -/
def skip_line_go (input : List Char) : Nat → Nat → Nat
  | 0, pos => pos
  | f+1, pos =>
    if !(is_token input pos ['\n']) && decide (pos < input.length) then
      skip_line_go input f (pos + 1)
    else pos

/-- `skip_line`: advance past the next newline. -/
def skip_line (input : List Char) (pos : Nat) : Nat :=
  skip_line_go input (input.length + 1) pos + 1

/-- Loop of `skip_elses`: while the cursor rests on `else`, step past it, its
block, and trailing spaces. -/
def skip_elses_go (input : List Char) : Nat → Nat → Nat
  | 0, pos => pos
  | f+1, pos =>
    if is_token input pos ['e', 'l', 's', 'e'] && decide (pos < input.length) then
      skip_elses_go input f (skip_spaces input (skip_block input (enter_block input (pos + 4))))
    else pos

/-- `skip_elses`: swallow any `else { ... }` arms following a taken branch. -/
def skip_elses (input : List Char) (pos : Nat) : Nat :=
  skip_elses_go input (input.length + 1) pos

/-- `parse_get_variable`: scan an identifier and look up its value (the C
fatal-exit path for an unknown identifier surfaces as `none`). -/
def parse_get_variable (input : List Char) (vars : List Variable) (pos : Nat) :
    Option (Number × Nat) :=
  let r := parse_name input pos
  let i := get_variable_index vars r.1
  if i ≥ 0 then some ((vars.getD i.toNat ⟨[], ⟨0, 0⟩, 0⟩).value, r.2)
  else none

/-- Iteration of `evaluate_expression` (tarzan.c lines 241-343).  The loop
exits at `)`, `;`, `<`, `>`, `=`, or end of buffer; otherwise it skips spaces
and consumes one operator byte, number literal, identifier, or parenthesised
sub-expression (`ev` is the recursive evaluator), ignoring anything else, and
then folds the window whenever it holds three numbers.  `none` means fuel ran
out (the C loop spins forever on a non-advancing byte) or a fatal lookup. -/
def eval_loop (input : List Char) (vars : List Variable)
    (ev : Nat → Option (Number × Nat)) :
    Nat → Nat → EvalWindow → Option (EvalWindow × Nat)
  | 0, _, _ => none
  | f+1, pos, w =>
    if is_token input pos [')'] || is_token input pos [';'] || is_token input pos ['<'] ||
        is_token input pos ['>'] || is_token input pos ['='] ||
        !(decide (pos < input.length)) then
      some (w, pos)
    else
      let pos2 := skip_spaces input pos
      let step : Option (EvalWindow × Nat) :=
        if is_token input pos2 ['+'] then some (set_op w 1, pos2 + 1)
        else if is_token input pos2 ['-'] then some (set_op w 2, pos2 + 1)
        else if is_token input pos2 ['*'] then some (set_op w 3, pos2 + 1)
        else if is_token input pos2 ['/'] then some (set_op w 4, pos2 + 1)
        else if is_digit (byteAt input pos2) then
          let r := parse_number input pos2
          some (place_number w r.1, r.2)
        else if is_lower (byteAt input pos2) then
          match parse_get_variable input vars pos2 with
          | none => none
          | some (v, p2) => some (place_number w v, p2)
        else if is_token input pos2 ['('] then
          match ev (pos2 + 1) with
          | none => none
          | some (r, p2) => some (place_number w r, p2 + 1)
        else some (w, pos2)
      match step with
      | none => none
      | some (w2, pos3) => eval_loop input vars ev f pos3 (fold_window w2)

/-- `evaluate_expression`: run the window loop from a fresh window, then apply
the final reduction and compaction.  Fuel-indexed; `none` on exhaustion. -/
def evaluate_expression : Nat → List Char → List Variable → Nat → Option (Number × Nat)
  | 0, _, _, _ => none
  | f+1, input, vars, pos =>
    match eval_loop input vars (fun p => evaluate_expression f input vars p)
        (f+1) pos initWindow with
    | none => none
    | some (w, p2) => some (compact_number (finish_window w), p2)

/-- `evaluate_condition`: expression, optional comparator (`==`, `<=`, `<`,
`>=`, `>`; codes 1,4,2,5,3; none leaves code 0), expression, align, compare;
an unrecognised comparator code compares as `false`. -/
def evaluate_condition (fuel : Nat) (input : List Char) (vars : List Variable)
    (pos : Nat) : Option (Bool × Nat) :=
  match evaluate_expression fuel input vars pos with
  | none => none
  | some (n1, p1) =>
    let p2 := skip_spaces input p1
    let cp : Nat × Nat :=
      if is_token input p2 ['=', '='] then (1, p2 + 2)
      else if is_token input p2 ['<', '='] then (4, p2 + 2)
      else if is_token input p2 ['<'] then (2, p2 + 1)
      else if is_token input p2 ['>', '='] then (5, p2 + 2)
      else if is_token input p2 ['>'] then (3, p2 + 1)
      else (0, p2)
    let p3 := skip_spaces input cp.2
    match evaluate_expression fuel input vars p3 with
    | none => none
    | some (n2, p4) =>
      let q := align_exponents n1 n2
      let r : Bool :=
        if cp.1 == 1 then q.1.value == q.2.value
        else if cp.1 == 2 then decide (q.1.value < q.2.value)
        else if cp.1 == 3 then decide (q.1.value > q.2.value)
        else if cp.1 == 4 then decide (q.1.value ≤ q.2.value)
        else if cp.1 == 5 then decide (q.1.value ≥ q.2.value)
        else false
      some (r, p4)

/-- `new_variable`: skip spaces, scan the name, skip spaces and `=`, evaluate
the initialiser, step over the trailing `;`, append the variable tagged with
the current block level.  (The C allocation-failure path is not modelled.) -/
def new_variable (fuel : Nat) (input : List Char) (st : State) : Option State :=
  let p1 := skip_spaces input st.pos
  let r := parse_name input p1
  let p3 := skip_eq_spaces input r.2
  match evaluate_expression fuel input st.vars p3 with
  | none => none
  | some (v, p4) =>
    some { st with pos := p4 + 1,
                   vars := st.vars ++ [⟨r.1, v, st.block_level⟩] }

/-- `set_variable`: scan the name; if it resolves, evaluate the right-hand
side, step over `;`, and overwrite the entry in place (name and level kept);
otherwise print the error line and die (`err` flag). -/
def set_variable (fuel : Nat) (input : List Char) (st : State) : Option State :=
  let r := parse_name input st.pos
  let i := get_variable_index st.vars r.1
  if i ≥ 0 then
    let old := st.vars.getD i.toNat ⟨[], ⟨0, 0⟩, 0⟩
    let p2 := skip_eq_spaces input r.2
    match evaluate_expression fuel input st.vars p2 with
    | none => none
    | some (v, p3) =>
      some { st with pos := p3 + 1,
                     vars := st.vars.set i.toNat ⟨old.name, v, old.level⟩ }
  else
    some { st with pos := r.2, err := true,
                   output := st.output ++
                     ["Error: Variable " ++ r.1.asString ++ " not found"] }

/-- The stdout line of a `print` statement: `"<value> * 10^<exponent>"`. -/
def render_number (n : Number) : String :=
  toString n.value ++ " * 10^" ++ toString n.exponent

/-- `parse_token`: the statement dispatcher (tarzan.c lines 550-644).  One
iteration of the main loop: skip spaces/newlines, then dispatch on the first
matching token, in the C order: `}`, `if`, `else if`, `else`, `while`, `//`,
`var`, `print`, lowercase (assignment), unknown byte. -/
def parse_token (fuel : Nat) (input : List Char) (st : State) : Option State :=
  let p0 := skip_spaces_nl input st.pos
  if is_token input p0 ['}'] then
    let p1 := p0 + 1
    match st.jump_stack with
    | [] => some { st with pos := p1 }
    | j :: rest =>
      let pr := decrese_block_level st.vars st.block_level
      let st1 := { st with pos := p1, jump_stack := rest,
                           vars := pr.1, block_level := pr.2 }
      if j.type == 1 then
        some { st1 with pos := skip_elses input (skip_spaces input p1) }
      else if j.type == 2 then
        some { st1 with pos := j.index }
      else some st1
  else if is_token input p0 ['i', 'f'] then
    let p1 := skip_spaces input (p0 + 2) + 1
    match evaluate_condition fuel input st.vars p1 with
    | none => none
    | some (c, p2) =>
      if c then
        some { st with pos := enter_block input p2,
                       jump_stack := ⟨1, 0⟩ :: st.jump_stack,
                       block_level := st.block_level + 1 }
      else
        some { st with pos := skip_block input (enter_block input p2) }
  else if is_token input p0 ['e', 'l', 's', 'e', ' ', 'i', 'f'] then
    let p1 := skip_spaces input (p0 + 7) + 1
    match evaluate_condition fuel input st.vars p1 with
    | none => none
    | some (c, p2) =>
      if c then
        some { st with pos := enter_block input p2,
                       jump_stack := ⟨1, 0⟩ :: st.jump_stack,
                       block_level := st.block_level + 1 }
      else
        some { st with pos := skip_block input (enter_block input p2) }
  else if is_token input p0 ['e', 'l', 's', 'e'] then
    some { st with pos := enter_block input (p0 + 4),
                   block_level := st.block_level + 1 }
  else if is_token input p0 ['w', 'h', 'i', 'l', 'e'] then
    let p1 := skip_spaces input (p0 + 5) + 1
    match evaluate_condition fuel input st.vars p1 with
    | none => none
    | some (c, p2) =>
      if c then
        some { st with pos := enter_block input p2,
                       jump_stack := ⟨2, p0⟩ :: st.jump_stack,
                       block_level := st.block_level + 1 }
      else
        some { st with pos := skip_block input (enter_block input p2) }
  else if is_token input p0 ['/', '/'] then
    some { st with pos := skip_line input p0 }
  else if is_token input p0 ['v', 'a', 'r'] then
    new_variable fuel input { st with pos := p0 + 3 }
  else if is_token input p0 ['p', 'r', 'i', 'n', 't'] then
    match evaluate_expression fuel input st.vars (p0 + 6) with
    | none => none
    | some (v, p2) =>
      some { st with pos := skip_line input p2,
                     output := st.output ++ [render_number v] }
  else if is_lower (byteAt input p0) then
    set_variable fuel input { st with pos := p0 }
  else
    some { st with pos := p0 + 1,
                   output := st.output ++ ["Unknown token: ".push (byteAt input p0)] }

/-- The main loop of tarzan.c: dispatch statements while the cursor is inside
the buffer (stopping early on the flag that models `exit(1)`). -/
def run : Nat → List Char → State → Option State
  | 0, input, st => if decide (st.pos < input.length) && !st.err then none else some st
  | f+1, input, st =>
    if decide (st.pos < input.length) && !st.err then
      match parse_token (f+1) input st with
      | none => none
      | some st2 => run f input st2
    else some st

/-! Inputs appearing in the claims (braces written with escapes). -/

/-- The program `num x = 2;` (claim C1's surface syntax). -/
def progC1 : List Char := "num x = 2;".toList

/-- The program `def g { print 7; } use g` (claim C2). -/
def progC2 : List Char := "def g \x7b print 7; \x7d use g".toList

/-- The program `if (1 > 2) { } else { }` (an `if` whose condition is false
followed by a plain `else` block; claim C4). -/
def progC4 : List Char := "if (1 > 2) \x7b \x7d else \x7b \x7d".toList

/-- The program `if (1 > 2) { } else { var x = 1; }` (claim C8). -/
def progC8 : List Char := "if (1 > 2) \x7b \x7d else \x7b var x = 1; \x7d".toList

/-- Division as claim C3 words it: scale `a` by `3 + |min(a.exponent, 0)|`
decimals (so only 3 when the exponent is positive), then divide.  This is the
claim-side reference; the code's `divide_numbers` uses `3 + |a.exponent|`. -/
def divide_numbers_claimC3 (a b : Number) : Number :=
  if b.value ≠ 0 then
    let a2 := add_decimals a (3 + ((min a.exponent 0).natAbs : Int))
    ⟨Int.tdiv a2.value b.value, a2.exponent - b.exponent⟩
  else ⟨0, 0⟩

/-- Environment binding `x`, `y`, `z` to three arbitrary Numbers (claim C6). -/
def envC6 (a b c : Number) : List Variable :=
  [⟨['x'], a, 0⟩, ⟨['y'], b, 0⟩, ⟨['z'], c, 0⟩]

/-! ### Helper lemmas -/

/-- Indexing with a default equals the head of the dropped suffix. -/
lemma getD_eq_headD_drop (l : List Char) (pos : Nat) (d : Char) :
    l.getD pos d = (l.drop pos).headD d := by
  induction l generalizing pos with
  | nil => simp [List.getD]
  | cons a t ih =>
    cases pos with
    | zero => simp [List.getD]
    | succ p => simp [List.getD, ih p]

/-- A matched token pins the byte under the cursor to its first character. -/
lemma is_token_head (input : List Char) (pos : Nat) (c : Char) (t : List Char)
    (h : is_token input pos (c :: t) = true) : byteAt input pos = c := by
  unfold is_token at h
  cases hd : input.drop pos with
  | nil => rw [hd] at h; simp at h
  | cons a s =>
    rw [hd] at h
    simp only [List.length_cons, List.take_succ_cons, beq_iff_eq, List.cons.injEq] at h
    unfold byteAt
    rw [getD_eq_headD_drop, hd]
    simpa using h.1

/-- A token whose first character differs from the byte under the cursor does
not match. -/
lemma is_token_head_ne (input : List Char) (pos : Nat) (c : Char) (t : List Char)
    (hne : byteAt input pos ≠ c) : is_token input pos (c :: t) = false := by
  cases hb : is_token input pos (c :: t) with
  | false => rfl
  | true => exact absurd (is_token_head _ _ _ _ hb) hne

/-- A one-character token matches exactly when the byte under the (in-range)
cursor is that character. -/
lemma is_token_single_eq (input : List Char) (pos : Nat) (c : Char)
    (h : pos < input.length) : is_token input pos [c] = (byteAt input pos == c) := by
  cases hd : input.drop pos with
  | nil =>
    have : input.length ≤ pos := by
      simpa using List.drop_eq_nil_iff.mp hd
    omega
  | cons a s =>
    unfold is_token byteAt
    rw [hd, getD_eq_headD_drop, hd]
    simp

/-- If `compact_go` is given at least `|value|` steps of budget, its result is
zero or not divisible by 10. -/
lemma compact_go_spec (f : Nat) (n : Number) (h : n.value.natAbs ≤ f) :
    (compact_go f n).value = 0 ∨ (compact_go f n).value % 10 ≠ 0 := by
  induction f generalizing n with
  | zero =>
    left
    simpa [compact_go] using Int.natAbs_eq_zero.mp (Nat.le_zero.mp h)
  | succ f ih =>
    rw [compact_go]
    by_cases hc : (n.value % 10 == 0 && n.value != 0) = true
    · rw [if_pos hc]
      simp only [Bool.and_eq_true, beq_iff_eq, bne_iff_ne, ne_eq] at hc
      obtain ⟨hmod, hnz⟩ := hc
      obtain ⟨k, hk⟩ := Int.dvd_of_emod_eq_zero hmod
      have hdiv : n.value / 10 = k := by
        rw [hk]; exact Int.mul_ediv_cancel_left k (by norm_num)
      apply ih
      have h10 : (10 * k).natAbs = 10 * k.natAbs := by
        simp [Int.natAbs_mul]
      have hk0 : k.natAbs ≠ 0 := by
        intro h0
        exact hnz (by rw [hk, Int.natAbs_eq_zero.mp h0, mul_zero])
      have : (10 : Int).natAbs * k.natAbs ≤ f + 1 := by
        rw [← Int.natAbs_mul, ← hk]; exact h
      simp only [hdiv]
      omega
    · rw [if_neg hc]
      simp only [Bool.and_eq_true, beq_iff_eq, bne_iff_ne, ne_eq, not_and, not_not] at hc
      by_cases hz : n.value = 0
      · exact Or.inl hz
      · right
        intro hm
        exact hz (hc hm)

/-! ### Claims -/

/-- C1 (counterexample).  The claim says a statement `num x = 2;` appends a
variable `x`; but the dispatcher has no `num` keyword (the branch at tarzan.c
line 622 tests `var`), so `num` falls through to the assignment handler,
which reports `Variable num not found` and dies: no variable is appended. -/
theorem C1_num_keyword_rejected :
    (parse_token 20 progC1 initState).map (fun s => (s.vars, s.err, s.output)) =
      some ([], true, ["Error: Variable num not found"]) := by decide

/-- C1 (amended: the keyword is `var`, not `num`).  Whenever the dispatcher,
after its space/newline skip, sees `var`, it advances 3 bytes, skips spaces,
parses the identifier, skips spaces and `=`, evaluates the expression, steps
over the trailing `;`, and appends a Variable with that name, that value, and
level equal to the current block level. -/
theorem C1_var_declaration (fuel : Nat) (input : List Char) (st : State)
    (p0 p1 : Nat) (nm : List Char) (p2 p3 p4 : Nat) (v : Number)
    (h0 : skip_spaces_nl input st.pos = p0)
    (hv : is_token input p0 ['v', 'a', 'r'] = true)
    (h1 : skip_spaces input (p0 + 3) = p1)
    (hn : parse_name input p1 = (nm, p2))
    (h3 : skip_eq_spaces input p2 = p3)
    (he : evaluate_expression fuel input st.vars p3 = some (v, p4)) :
    parse_token fuel input st =
      some { st with pos := p4 + 1,
                     vars := st.vars ++ [⟨nm, v, st.block_level⟩] } := by
  have hb := is_token_head input p0 'v' ['a', 'r'] hv
  have e1 : is_token input p0 ['}'] = false :=
    is_token_head_ne input p0 '}' [] (by rw [hb]; decide)
  have e2 : is_token input p0 ['i', 'f'] = false :=
    is_token_head_ne input p0 'i' ['f'] (by rw [hb]; decide)
  have e3 : is_token input p0 ['e', 'l', 's', 'e', ' ', 'i', 'f'] = false :=
    is_token_head_ne input p0 'e' ['l', 's', 'e', ' ', 'i', 'f'] (by rw [hb]; decide)
  have e4 : is_token input p0 ['e', 'l', 's', 'e'] = false :=
    is_token_head_ne input p0 'e' ['l', 's', 'e'] (by rw [hb]; decide)
  have e5 : is_token input p0 ['w', 'h', 'i', 'l', 'e'] = false :=
    is_token_head_ne input p0 'w' ['h', 'i', 'l', 'e'] (by rw [hb]; decide)
  have e6 : is_token input p0 ['/', '/'] = false :=
    is_token_head_ne input p0 '/' ['/'] (by rw [hb]; decide)
  simp [parse_token, h0, e1, e2, e3, e4, e5, e6, hv, new_variable, h1, hn, h3, he]

/-- C1 witness: `var x = 2;` at the start appends `x = 2` at level 0. -/
theorem C1_var_declaration_witness :
    parse_token 20 "var x = 2;".toList initState =
      some { initState with pos := 10,
                            vars := [⟨['x'], ⟨2, 0⟩, 0⟩] } := by
  have h := C1_var_declaration 20 "var x = 2;".toList initState 0 4 ['x'] 5 8 9 ⟨2, 0⟩
    (by decide) (by decide) (by decide) (by decide) (by decide) (by decide)
  simpa using h

/-- C2 (counterexample).  On `def g { print 7; } use g` the interpreter does
not print `7 * 10^0`: there is no snippet machinery at all. -/
theorem C2_no_snippet_output :
    (run 50 progC2 initState).map State.output ≠ some ["7 * 10^0"] := by decide

/-- C2 (amended).  The interpreter has no `def`/`use` statements; on
`def g { print 7; } use g` the leading `def` is treated as an assignment to
the (unknown) variable `def`, so execution prints the undefined-variable
error and halts with no numeric output at all. -/
theorem C2_def_is_unknown_variable :
    (run 50 progC2 initState).map (fun s => (s.output, s.err)) =
      some (["Error: Variable def not found"], true) := by decide

/-- C3 (counterexample).  For `a = {1, 2}` and `b = {1, 0}` the code scales
`a` by `3 + |a.exponent|` = 5 decimals (giving `{100000, -3}`), not by the
claimed `3 + |min(a.exponent, 0)|` = 3 decimals (which would give
`{1000, -1}`): with a positive exponent more than 3 decimals are added. -/
theorem C3_scaling_counterexample :
    divide_numbers ⟨1, 2⟩ ⟨1, 0⟩ = ⟨100000, -3⟩ ∧
      divide_numbers_claimC3 ⟨1, 2⟩ ⟨1, 0⟩ = ⟨1000, -1⟩ ∧
      divide_numbers ⟨1, 2⟩ ⟨1, 0⟩ ≠ divide_numbers_claimC3 ⟨1, 2⟩ ⟨1, 0⟩ := by
  decide

/-- C3 (amended: the scale factor is `3 + |a.exponent|`, not
`3 + |min(a.exponent, 0)|`).  For `b.value ≠ 0`, `divide_numbers` scales `a`
by exactly `3 + |a.exponent|` decimal digits and then returns the truncating
quotient of the scaled value by `b.value`, with exponent
`(a.exponent - (3 + |a.exponent|)) - b.exponent`. -/
theorem C3_division_scaling (a b : Number) (h : b.value ≠ 0) :
    divide_numbers a b =
      ⟨Int.tdiv (a.value * 10 ^ (3 + a.exponent.natAbs)) b.value,
        a.exponent - (3 + (a.exponent.natAbs : Int)) - b.exponent⟩ := by
  have ht : ((3 : Int) + (a.exponent.natAbs : Int)).toNat = 3 + a.exponent.natAbs := by
    omega
  unfold divide_numbers add_decimals
  rw [if_pos h]
  rw [ht]

/-- C3 witness: `{1, 2} / {3, 0}`: 5 decimals are added (`100000`), and
`100000.tdiv 3 = 33333` with exponent `-3`. -/
theorem C3_division_scaling_witness :
    divide_numbers ⟨1, 2⟩ ⟨3, 0⟩ = ⟨33333, -3⟩ := by
  rw [C3_division_scaling ⟨1, 2⟩ ⟨3, 0⟩ (by decide)]
  decide

/-- C4 (counterexample).  Running `if (1 > 2) { } else { }`: the `if` is
false (so nothing is pushed), the plain `else` block is entered raising the
level to 1, and at its closing `}` the dispatcher pops the EMPTY jump stack
and therefore does NOT decrement the block level: the final state has block
level 1, not the 0 the claim's "simply decrement and continue" requires. -/
theorem C4_else_close_no_decrement :
    (run 50 progC4 initState).map (fun s => (s.block_level, s.jump_stack, s.vars)) =
      some (1, [], []) := by decide

/-- C4 (amended).  At a closing `}` the dispatcher always pops the jump
stack: with an empty stack nothing else happens (the level is NOT
decremented), and with a non-empty stack the top Jump — which belongs to the
innermost enclosing block that pushed one, not necessarily to the block being
closed — is consumed: the level is decremented with pruning and the jump's
action (else-skipping or cursor rewind) is performed.  A plain `else` block
pushes no Jump, so its `}` hits one of these two cases. -/
theorem C4_close_brace_pops_stack (fuel : Nat) (input : List Char) (st : State)
    (p0 : Nat)
    (h0 : skip_spaces_nl input st.pos = p0)
    (hb : is_token input p0 ['}'] = true) :
    (st.jump_stack = [] → parse_token fuel input st = some { st with pos := p0 + 1 }) ∧
    (∀ j rest, st.jump_stack = j :: rest → ∃ p : Nat,
      parse_token fuel input st =
        some { st with pos := p, jump_stack := rest,
                       vars := (decrese_block_level st.vars st.block_level).1,
                       block_level := st.block_level - 1 }) := by
  constructor
  · intro hjs
    simp [parse_token, h0, hb, hjs]
  · intro j rest hjs
    by_cases h1 : (j.type == 1) = true
    · exact ⟨skip_elses input (skip_spaces input (p0 + 1)),
        by simp [parse_token, h0, hb, hjs, h1, decrese_block_level]⟩
    · by_cases h2 : (j.type == 2) = true
      · exact ⟨j.index,
          by simp [parse_token, h0, hb, hjs, h1, h2, decrese_block_level]⟩
      · exact ⟨p0 + 1,
          by simp [parse_token, h0, hb, hjs, h1, h2, decrese_block_level]⟩

/-- C4 witness: a lone `}` with an empty jump stack just steps the cursor
past the brace; level, stack and environment are untouched. -/
theorem C4_close_brace_pops_stack_witness :
    parse_token 3 ['}'] initState = some { initState with pos := 1 } :=
  (C4_close_brace_pops_stack 3 ['}'] initState 0 (by decide) (by decide)).1 rfl

/-- C5 (counterexample).  Evaluating the expression `-5;` yields the Number
`{5, 0}`, i.e. value +5, not the −5 the claim requires: `evaluate_expression`
consumes the `-` as an operator byte before `parse_number` can see it, and a
pending operator with a single parsed number is dropped. -/
theorem C5_minus_five_is_plus_five :
    (evaluate_expression 20 "-5;".toList [] 0).map Prod.fst = some ⟨5, 0⟩ ∧
      (⟨5, 0⟩ : Number) ≠ ⟨-5, 0⟩ := by decide

/-- C5 (amended).  A `-` before a digit sequence is consumed as an operator
(codes set to minus), never as a literal sign: for every expression that
consists solely of `-` followed by a numeric literal (a digit `d`, then
whatever `parse_number` consumes to the end of the input, yielding `n`),
`evaluate_expression` returns `compact_number n` — the literal's POSITIVE
value — because the pending minus is discarded when only one number was
parsed. -/
theorem C5_minus_digit_is_operator (f : Nat) (d : Char) (rest : List Char)
    (n : Number)
    (hd : is_digit d = true)
    (hp : parse_number ('-' :: d :: rest) 1 = (n, ('-' :: d :: rest).length)) :
    evaluate_expression (f + 3) ('-' :: d :: rest) [] 0 =
      some (compact_number n, ('-' :: d :: rest).length) := by
  have hdig : '0' ≤ d ∧ d ≤ '9' := by simpa [is_digit] using hd
  have hne : ∀ x : Char, ¬('0' ≤ x ∧ x ≤ '9') → (d == x) = false := by
    intro x hx
    exact beq_eq_false_iff_ne.mpr fun he => hx (he ▸ hdig)
  have tok1 : ∀ c : Char, is_token ('-' :: d :: rest) 1 [c] = (d == c) := by
    intro c
    simp [is_token]
  have hdg : is_digit (byteAt ('-' :: d :: rest) 1) = true := hd
  have step1 : ∀ (ev : Nat → Option (Number × Nat)) (g : Nat),
      eval_loop ('-' :: d :: rest) [] ev (g + 1) 0 initWindow =
        eval_loop ('-' :: d :: rest) [] ev g 1 ⟨0, ⟨0, 0⟩, ⟨0, 0⟩, ⟨0, 0⟩, 2, 2⟩ :=
    fun _ _ => rfl
  have hs1 : skip_spaces ('-' :: d :: rest) 1 = 1 := by
    rw [skip_spaces]
    rw [show ('-' :: d :: rest).length + 1 = (rest.length + 2) + 1 by simp]
    rw [skip_spaces_go, tok1 ' ', hne ' ' (by decide)]
    simp
  have step2 : ∀ (ev : Nat → Option (Number × Nat)) (g : Nat),
      eval_loop ('-' :: d :: rest) [] ev (g + 1) 1 ⟨0, ⟨0, 0⟩, ⟨0, 0⟩, ⟨0, 0⟩, 2, 2⟩ =
        eval_loop ('-' :: d :: rest) [] ev g ('-' :: d :: rest).length
          ⟨1, n, ⟨0, 0⟩, ⟨0, 0⟩, 2, 2⟩ := by
    intro ev g
    rw [eval_loop]
    rw [tok1 ')', tok1 ';', tok1 '<', tok1 '>', tok1 '=']
    rw [hne ')' (by decide), hne ';' (by decide), hne '<' (by decide),
        hne '>' (by decide), hne '=' (by decide)]
    rw [show decide (1 < ('-' :: d :: rest).length) = true from
      decide_eq_true (by simp)]
    simp only [Bool.false_or, Bool.not_true, Bool.or_false, if_false,
      Bool.false_eq_true]
    rw [hs1]
    rw [tok1 '+', tok1 '-', tok1 '*', tok1 '/']
    rw [hne '+' (by decide), hne '-' (by decide), hne '*' (by decide),
        hne '/' (by decide)]
    simp only [hdg, hp, if_false, if_true, Bool.false_eq_true, Bool.true_eq_false]
    simp [place_number, fold_window]
  have step3 : ∀ (ev : Nat → Option (Number × Nat)) (g : Nat) (w : EvalWindow),
      eval_loop ('-' :: d :: rest) [] ev (g + 1) ('-' :: d :: rest).length w =
        some (w, ('-' :: d :: rest).length) := by
    intro ev g w
    rw [eval_loop]
    rw [show decide (('-' :: d :: rest).length < ('-' :: d :: rest).length) = false from
      decide_eq_false (lt_irrefl _)]
    simp
  rw [show f + 3 = ((f + 1) + 1) + 1 from rfl, evaluate_expression]
  rw [step1, step2, step3]
  rfl

/-- C5 witness: `-5` evaluates to `{5, 0}` (position past the two bytes). -/
theorem C5_minus_digit_is_operator_witness :
    evaluate_expression 3 ('-' :: '5' :: []) [] 0 = some (⟨5, 0⟩, 2) := by
  have h := C5_minus_digit_is_operator 0 '5' [] ⟨5, 0⟩ (by decide) (by decide)
  simpa using h

set_option maxHeartbeats 12000000 in
/-- C6.  Two-tier operator precedence of the 3-number/2-operator window:
for arbitrary Numbers `a`, `b`, `c` bound to the variables `x`, `y`, `z`,
every shape `a ⊕ b ⊗ c` (with `⊕ ∈ {+,-}`, `⊗ ∈ {*,/}`) evaluates to the
engine's `⊕` applied to `a` and `⊗ b c`, and every shape `a ⊗ b ⊕ c`
evaluates to the engine's `⊕` applied to `⊗ a b` and `c` — where the engine
operations are align-then-add/sub/mul/divide exactly as in the C code, and
the result is compacted on return. -/
theorem C6_two_tier_precedence (a b c : Number) :
    (evaluate_expression 7 "x+y*z".toList (envC6 a b c) 0 =
      some (compact_number (add_aligned a (mul_aligned b c)), 5)) ∧
    (evaluate_expression 7 "x-y*z".toList (envC6 a b c) 0 =
      some (compact_number (sub_aligned a (mul_aligned b c)), 5)) ∧
    (evaluate_expression 7 "x+y/z".toList (envC6 a b c) 0 =
      some (compact_number (add_aligned a (div_aligned b c)), 5)) ∧
    (evaluate_expression 7 "x-y/z".toList (envC6 a b c) 0 =
      some (compact_number (sub_aligned a (div_aligned b c)), 5)) ∧
    (evaluate_expression 7 "x*y+z".toList (envC6 a b c) 0 =
      some (compact_number (add_aligned (mul_aligned a b) c), 5)) ∧
    (evaluate_expression 7 "x*y-z".toList (envC6 a b c) 0 =
      some (compact_number (sub_aligned (mul_aligned a b) c), 5)) ∧
    (evaluate_expression 7 "x/y+z".toList (envC6 a b c) 0 =
      some (compact_number (add_aligned (div_aligned a b) c), 5)) ∧
    (evaluate_expression 7 "x/y-z".toList (envC6 a b c) 0 =
      some (compact_number (sub_aligned (div_aligned a b) c), 5)) :=
  ⟨rfl, rfl, rfl, rfl, rfl, rfl, rfl, rfl⟩

/-- C7.  Every Number successfully returned by `evaluate_expression` with a
non-zero value is compacted: its value is not divisible by 10. -/
theorem C7_eval_result_compacted (fuel : Nat) (input : List Char)
    (vars : List Variable) (pos : Nat) (r : Number) (p2 : Nat)
    (h : evaluate_expression fuel input vars pos = some (r, p2))
    (hnz : r.value ≠ 0) : r.value % 10 ≠ 0 := by
  cases fuel with
  | zero => simp [evaluate_expression] at h
  | succ f =>
    rw [evaluate_expression] at h
    cases hl : eval_loop input vars (fun p => evaluate_expression f input vars p)
        (f+1) pos initWindow with
    | none => rw [hl] at h; simp at h
    | some wp =>
      rw [hl] at h
      obtain ⟨w, p⟩ := wp
      simp only [Option.some.injEq, Prod.mk.injEq] at h
      obtain ⟨hr, -⟩ := h
      rcases compact_go_spec (finish_window w).value.natAbs (finish_window w) le_rfl with
        hz | hnd
      · exact absurd (hr ▸ hz : r.value = 0) hnz
      · exact hr ▸ hnd

/-- C7 witness: the expression `20;` evaluates to the compacted `{2, 1}`,
whose value 2 is non-zero and not divisible by 10. -/
theorem C7_eval_result_compacted_witness : (2 : Int) % 10 ≠ 0 :=
  C7_eval_result_compacted 20 "20;".toList [] 0 ⟨2, 1⟩ 2 (by decide) (by decide)

/-- C8 (code bug).  On `if (1 > 2) { } else { var x = 1; }` the closing `}`
of the `else` block pops an empty jump stack (the false `if` pushed nothing),
so `decrese_block_level` never runs: the level-1 variable `x` survives the
block and the block level stays 1.  The claim (and the code's own scoping
TODO and the comment on `decrese_block_level`) require `x` to be pruned. -/
theorem C8_scope_leak :
    (run 80 progC8 initState).map (fun s => (s.vars, s.block_level)) =
      some ([⟨['x'], ⟨1, 0⟩, 1⟩], 1) := by decide

/-- C9.  Division by zero silently yields `{0, 0}`: `divide_numbers` has no
error path and no output. -/
theorem C9_div_by_zero_silent (a b : Number) (h : b.value = 0) :
    divide_numbers a b = ⟨0, 0⟩ := by
  simp [divide_numbers, h]

/-- C9 witness: `{7, 2} / {0, 5} = {0, 0}`. -/
theorem C9_div_by_zero_silent_witness : divide_numbers ⟨7, 2⟩ ⟨0, 5⟩ = ⟨0, 0⟩ :=
  C9_div_by_zero_silent ⟨7, 2⟩ ⟨0, 5⟩ rfl

/-- C10.  If, after the first expression of a condition (and the space skip),
none of `==`, `<=`, `<`, `>=`, `>` is present at the cursor, the comparator
code stays 0: `evaluate_condition` still consumes the second expression and
returns `false` at that expression's end position. -/
theorem C10_missing_comparator_false (fuel : Nat) (input : List Char)
    (vars : List Variable) (pos : Nat) (n1 : Number) (p1 : Nat) (n2 : Number)
    (p5 : Nat)
    (h1 : evaluate_expression fuel input vars pos = some (n1, p1))
    (hc1 : is_token input (skip_spaces input p1) ['=', '='] = false)
    (hc2 : is_token input (skip_spaces input p1) ['<', '='] = false)
    (hc3 : is_token input (skip_spaces input p1) ['<'] = false)
    (hc4 : is_token input (skip_spaces input p1) ['>', '='] = false)
    (hc5 : is_token input (skip_spaces input p1) ['>'] = false)
    (h2 : evaluate_expression fuel input vars
        (skip_spaces input (skip_spaces input p1)) = some (n2, p5)) :
    evaluate_condition fuel input vars pos = some (false, p5) := by
  simp [evaluate_condition, h1, hc1, hc2, hc3, hc4, hc5, h2]

/-- C10 witness: the condition `5)` has no comparator after its first
expression (`5` stops at `)`), the second expression is empty, and the result
is `false`. -/
theorem C10_missing_comparator_false_witness :
    evaluate_condition 20 "5)".toList [] 0 = some (false, 1) :=
  C10_missing_comparator_false 20 "5)".toList [] 0 ⟨5, 0⟩ 1 ⟨0, 0⟩ 1
    (by decide) (by decide) (by decide) (by decide) (by decide) (by decide) (by decide)

end Tarzan
